import Mathlib

/-!
Verification of the Ironhack-Flow-SocialApp repository: a shallow embedding of
the post controller (`listNewsFeed`, `listByUser`, `create`), the delete-post
route chain, the client post API (`like`), the `Comments` component's
`addComment` key handler, and the `Newsfeed` component's `removePost` mutator,
together with theorems settling the frozen claims about them.

Database documents are modelled as Lean structures, the Mongo collection as a
`List`, the query pipeline (`find` / `populate` / `sort`) as filter / map /
stable insertion sort, and JavaScript array mutation (`push`, `splice`) as
explicit state passing.
-/

namespace SocialApp

abbrev UserId := Nat

abbrev Time := Nat

/-- A user document: `_id`, public `name`, and the `following` array of user
references (the fields the post controller touches). -/
structure User where
  _id : UserId
  name : String
  following : List UserId
deriving DecidableEq

/-- An author reference as it appears in a JSON response: either the raw
stored ObjectId (not populated), or populated to the selected public fields
`_id name`, or `null` when population finds no matching user. -/
inductive AuthorRef where
  | raw (id : UserId)
  | populated (id : UserId) (name : String)
  | nullRef
deriving DecidableEq

/-- Whether a reference has been populated to the `_id name` public fields. -/
def AuthorRef.isPopulated : AuthorRef → Bool
  | .populated _ _ => true
  | _ => false

/-- The ObjectId stored in a reference, when there is one. -/
def refId : AuthorRef → Option UserId
  | .raw i => some i
  | .populated i _ => some i
  | .nullRef => none

/-- An embedded comment: text, author reference, creation timestamp. -/
structure Comment where
  text : String
  postedBy : AuthorRef
  created : Time
deriving DecidableEq

/-- A post document. `postedBy` is the schema's author reference field;
`createdBy` is NOT a schema field: it models the stray property the `create`
controller assigns (`post.createdBy = req.profile`), carrying the whole
profile document. -/
structure Post where
  text : String := ""
  photo : Option String := none
  postedBy : Option AuthorRef := none
  createdBy : Option User := none
  created : Time := 0
  likes : List UserId := []
  comments : List Comment := []
deriving DecidableEq

/-- Mongoose `populate(path, selection)` on one reference: replace a raw
ObjectId by the referenced user's selected `_id name` fields, or by `null`
when no user matches. -/
def populateRef (users : List User) : AuthorRef → AuthorRef
  | .raw i =>
      match users.find? (fun u => u._id == i) with
      | some u => .populated u._id u.name
      | none => .nullRef
  | r => r

/-- `populate(comments.postedBy, _id name)` applied to one post. -/
def populateCommentAuthors (users : List User) (p : Post) : Post :=
  { p with comments := p.comments.map fun c => { c with postedBy := populateRef users c.postedBy } }

/-- `populate(postedBy, _id name)` applied to one post. -/
def populatePostAuthor (users : List User) (p : Post) : Post :=
  { p with postedBy := p.postedBy.map (populateRef users) }

/-- The sort order of `sort(-created)`: creation timestamp descending. -/
def createdDesc (p q : Post) : Prop := q.created ≤ p.created

instance : DecidableRel createdDesc :=
  fun p q => inferInstanceAs (Decidable (q.created ≤ p.created))

instance : IsTotal Post createdDesc := ⟨fun p q => Nat.le_total q.created p.created⟩

instance : IsTrans Post createdDesc := ⟨fun _ _ _ h1 h2 => Nat.le_trans h2 h1⟩

/-- The `find` condition of the feed query: `postedBy` is stored and its
ObjectId is in the given id list (Mongo `postedBy in ids`). -/
def authorMatches (ids : List UserId) (p : Post) : Bool :=
  match p.postedBy with
  | some r =>
      match refId r with
      | some i => ids.contains i
      | none => false
  | none => false

/-- The `find` condition of `listByUser`: `postedBy` equals the given user. -/
def byUserMatch (uid : UserId) (p : Post) : Bool :=
  match p.postedBy with
  | some r => refId r == some uid
  | none => false

/-- The query pipeline of `listNewsFeed`:
`find(postedBy in ids) . populate(comments.postedBy, _id name) . sort(-created)`.
The post's own `postedBy` is NOT populated by this pipeline. -/
def feedQuery (users : List User) (db : List Post) (ids : List UserId) : List Post :=
  List.insertionSort createdDesc
    ((db.filter (authorMatches ids)).map (populateCommentAuthors users))

/-- The `listNewsFeed` controller. It first executes
`following.push(req.profile._id)` — a mutation of the profile document held on
the request — and then queries with the mutated array. The returned pair is
(response body, the state of `req.profile` after the handler ran). -/
def listNewsFeed (users : List User) (db : List Post) (profile : User) :
    List Post × User :=
  (feedQuery users db (profile.following ++ [profile._id]),
   { profile with following := profile.following ++ [profile._id] })

/-- The `listByUser` controller. It runs the query
`find(postedBy = req.profile._id) . populate(comments.postedBy) .
populate(postedBy) . sort(-created)` and binds the result, but then calls
`res.json()` with NO argument, so the 200 response carries no body: the pair
is (HTTP status, response body), with body `none`. -/
def listByUser (users : List User) (db : List Post) (profile : User) :
    Nat × Option (List Post) :=
  let _posts := List.insertionSort createdDesc
    ((db.filter (byUserMatch profile._id)).map
      (fun p => populatePostAuthor users (populateCommentAuthors users p)))
  (200, none)

/-- The multipart fields of a create request (the post text). -/
structure Fields where
  text : String
deriving DecidableEq

/-- Outcome of `form.parse`: failure, or the fields plus an optional photo
file path. -/
inductive ParseOutcome where
  | failure
  | success (fields : Fields) (photoPath : Option String)

/-- Result of the `create` controller: HTTP status, error body, success body
(the saved post echoed by `res.json(result)`), and the post collection after
the handler ran. -/
structure CreateResult where
  status : Nat
  error : Option String
  body : Option Post
  db : List Post
deriving DecidableEq

/-- `new Post(fields)`: a post built from the multipart fields, with the
server-assigned creation timestamp and every other field at its default. -/
def Post.ofFields (fields : Fields) (now : Time) : Post :=
  { text := fields.text, created := now }

/-- The `create` controller. On parse failure it answers 400 with the error
string `Image could not be uploaded` and saves nothing. On success it builds
`new Post(fields)`, assigns `post.createdBy = req.profile` (the whole profile
document, on a property that is not `postedBy`), sets `post.photo` to the
uploaded URL when a photo file is present, saves the post, and echoes it. -/
def create (profile : User) (now : Time) (upload : String → String)
    (db : List Post) (parsed : ParseOutcome) : CreateResult :=
  match parsed with
  | .failure =>
      { status := 400, error := some "Image could not be uploaded", body := none, db := db }
  | .success fields photoPath =>
      let post := Post.ofFields fields now
      let post := { post with createdBy := some profile }
      let post :=
        match photoPath with
        | some path => { post with photo := some (upload path) }
        | none => post
      { status := 200, error := none, body := some post, db := db ++ [post] }

/-- Modelled from the spec: the `isPoster` middleware of the post controller
is not under src/ (only the route table naming it is); section 4.7 states it
fails with Forbidden unless the authenticated user equals the post's
`postedBy`. -/
def isPoster (post : Post) (u : UserId) : Bool :=
  match post.postedBy with
  | some r => refId r == some u
  | none => false

/-- Modelled from the spec: the `remove` controller operation is not under
src/; section 4.7 states it deletes the post. -/
def removeFromDb (db : List Post) (post : Post) : List Post :=
  db.erase post

/-- Outcome of the DELETE route: HTTP status, post collection afterwards, and
whether the terminal `remove` handler was invoked. -/
structure DeleteOutcome where
  status : Nat
  db : List Post
  removeInvoked : Bool
deriving DecidableEq

/-- The middleware chain bound by `post.routes.js` on
DELETE /api/posts/:postId — `requireSignin, isPoster, remove`, in that order.
`requireSignin` (modelled from the spec, section 4.5: not under src/) halts
with 401 when no valid credential is present; `isPoster` halts with 403 when
the authenticated user is not the post's author; only then does `remove`
run. -/
def deletePostRoute (auth : Option UserId) (post : Post) (db : List Post) :
    DeleteOutcome :=
  match auth with
  | none => { status := 401, db := db, removeInvoked := false }
  | some u =>
      if isPoster post u then
        { status := 200, db := removeFromDb db post, removeInvoked := true }
      else
        { status := 403, db := db, removeInvoked := false }

/-- The JSON body sent by the client `like` / `unlike` helpers. -/
structure LikeBody where
  postId : String
  userId : String
deriving DecidableEq

/-- One `fetch` call as issued by a client API helper: URL string exactly as
written in the source, HTTP method, headers, optional JSON body. -/
structure FetchCall where
  url : String
  method : String
  headers : List (String × String)
  body : Option LikeBody
deriving DecidableEq

/-- The client `like` helper from api-post: a PUT `fetch` to the URL string
`api/posts/like/` (as written in the source: relative, trailing slash), with
Accept / Content-Type / Authorization Bearer headers and a JSON body holding
`postId` and `userId`. -/
def like (paramsUserId : String) (credentialsT : String) (postId : String) :
    FetchCall :=
  { url := "api/posts/like/"
    method := "PUT"
    headers := [("Accept", "application/json"),
                ("Content-Type", "application/json"),
                ("Authorization", "Bearer " ++ credentialsT)]
    body := some { postId := postId, userId := paramsUserId } }

/-- A keyboard event as seen by the `Comments` input handler: the
`event.code` string (a key name such as `Enter`) and `event.target.value`. -/
structure KeyEvent where
  code : String
  targetValue : String
deriving DecidableEq

/-- The numeric value of a decimal digit character, when it is one. -/
def digitVal? (c : Char) : Option Nat :=
  if 48 ≤ c.toNat && c.toNat ≤ 57 then some (c.toNat - 48) else none

/-- The natural number denoted by a non-empty string of decimal digits, and
`none` for every other character list (which `Number` turns into `NaN`). -/
def decimalVal? (cs : List Char) : Option Nat :=
  match cs with
  | [] => none
  | _ =>
      cs.foldl
        (fun acc c =>
          match acc, digitVal? c with
          | some n, some d => some (10 * n + d)
          | _, _ => none)
        (some 0)

/-- JavaScript loose equality `s == n` between a string and a number: the
string is converted with `Number(s)`; a string that is not a numeral (such as
a key name like `Enter`) converts to `NaN`, which is equal to nothing. -/
def jsLooseEqNat (s : String) (n : Nat) : Bool :=
  match decimalVal? s.data with
  | some m => m == n
  | none => false

/-- The comment request the `Comments` component would send through the
`comment` API helper. -/
structure CommentRequest where
  userId : UserId
  token : String
  postId : Nat
  text : String
deriving DecidableEq

/-- The `addComment` keydown handler of the `Comments` component: it sends a
comment request only when `event.code == 13` (JavaScript loose equality) and
`event.target.value` is truthy; otherwise no request is made. The request
body carries the component's `text` state. -/
def addComment (jwtUserId : UserId) (token : String) (postId : Nat)
    (stateText : String) (event : KeyEvent) : Option CommentRequest :=
  if jsLooseEqNat event.code 13 && event.targetValue != "" then
    some { userId := jwtUserId, token := token, postId := postId, text := stateText }
  else
    none

/-- JavaScript `Array.prototype.indexOf`: index of the first occurrence, or
`-1` when the element does not occur. -/
def jsIndexOf {α : Type} [DecidableEq α] (l : List α) (a : α) : Int :=
  if a ∈ l then (l.indexOf a : Int) else -1

/-- JavaScript `Array.prototype.splice(start, 1)`: a negative `start` counts
from the end and is clamped at 0; a `start` past the end deletes nothing; one
element at the resulting position is removed. -/
def jsSpliceRemoveOne {α : Type} (l : List α) (start : Int) : List α :=
  let actualStart : Nat :=
    (if start < 0 then max ((l.length : Int) + start) 0
     else min start (l.length : Int)).toNat
  l.take actualStart ++ l.drop (actualStart + 1)

/-- The `removePost` mutator of the `Newsfeed` component:
`updatedPost.splice(updatedPost.indexOf(post), 1)` on a copy of the list. -/
def removePost {α : Type} [DecidableEq α] (posts : List α) (post : α) : List α :=
  jsSpliceRemoveOne posts (jsIndexOf posts post)

/- Sample documents used by witness and counterexample theorems. -/

/-- Sample user 1. -/
def uA : User := ⟨1, "Ann", []⟩

/-- Sample user 2. -/
def uB : User := ⟨2, "Ben", []⟩

/-- Sample user 3, following users 1 and 2. -/
def uC : User := ⟨3, "Cam", [1, 2]⟩

/-- Sample user 4, followed by nobody in the samples. -/
def uD : User := ⟨4, "Dan", []⟩

/-- The sample user collection. -/
def sampleUsers : List User := [uA, uB, uC, uD]

/-- Sample post by user 1. -/
def pA : Post := { text := "a", postedBy := some (.raw 1), created := 10 }

/-- Sample post by user 2. -/
def pB : Post := { text := "b", postedBy := some (.raw 2), created := 30 }

/-- Sample post by user 3. -/
def pC : Post := { text := "c", postedBy := some (.raw 3), created := 20 }

/-- Sample post by user 4. -/
def pD : Post := { text := "d", postedBy := some (.raw 4), created := 40 }

/-- Sample post collection. -/
def sampleDb : List Post := [pA, pB, pC, pD]

/-- Sample post by user 1 carrying a comment by user 2. -/
def pE : Post :=
  { text := "e", postedBy := some (.raw 1), created := 5,
    comments := [⟨"nice", .raw 2, 6⟩] }

/-- Evaluating `splice` at a non-negative start index. -/
theorem jsSpliceRemoveOne_ofNat {α : Type} (l : List α) (i : Nat) :
    jsSpliceRemoveOne l (i : Int) = l.take i ++ l.drop (i + 1) := by
  have h1 : ¬ ((i : Int) < 0) := by omega
  have h2 : (min (i : Int) (l.length : Int)).toNat = min i l.length := by omega
  simp only [jsSpliceRemoveOne, h1, if_false, h2]
  rcases Nat.le_total i l.length with h | h
  · rw [Nat.min_eq_left h]
  · rw [Nat.min_eq_right h, List.take_length, List.take_of_length_le h,
      List.drop_eq_nil_of_le (Nat.le_succ_of_le (Nat.le_refl l.length)),
      List.drop_eq_nil_of_le (Nat.le_succ_of_le h)]

/-- Evaluating `splice(-1, 1)`: it removes the last element of a non-empty
list and leaves an empty list unchanged. -/
theorem jsSpliceRemoveOne_neg_one {α : Type} (l : List α) :
    jsSpliceRemoveOne l (-1) = l.dropLast := by
  have h1 : ((-1 : Int) < 0) := by omega
  have h2 : (max ((l.length : Int) + -1) 0).toNat = l.length - 1 := by omega
  simp only [jsSpliceRemoveOne, h1, if_true, h2]
  have hd : l.drop (l.length - 1 + 1) = [] := List.drop_eq_nil_of_le (by omega)
  rw [hd, List.append_nil, List.dropLast_eq_take]

/-- Claim C1: for a signed-in user whose `following` set is `[A, B]`, the
`listNewsFeed` response is exactly the stored posts whose author is A, B, or
the requester (a permutation of the filtered collection, each post carrying
its populated comment authors), sorted by creation timestamp descending. -/
theorem listNewsFeed_returns_followed_and_own_sorted
    (users : List User) (db : List Post) (profile : User) (A B : UserId)
    (hf : profile.following = [A, B]) :
    ((listNewsFeed users db profile).1).Perm
        ((db.filter (authorMatches [A, B, profile._id])).map
          (populateCommentAuthors users))
      ∧ ((listNewsFeed users db profile).1).Sorted createdDesc := by
  constructor
  · show (feedQuery users db (profile.following ++ [profile._id])).Perm _
    rw [hf]
    exact List.perm_insertionSort createdDesc _
  · exact List.sorted_insertionSort createdDesc _

/-- Witness for claim C1 at a concrete collection: user 3 follows `[1, 2]`,
and the feed is exactly the posts of users 1, 2 and 3 in the sample
collection, newest first. -/
theorem listNewsFeed_feed_witness :
    uC.following = [1, 2]
      ∧ (((listNewsFeed sampleUsers sampleDb uC).1).Perm
            ((sampleDb.filter (authorMatches [1, 2, uC._id])).map
              (populateCommentAuthors sampleUsers))
          ∧ ((listNewsFeed sampleUsers sampleDb uC).1).Sorted createdDesc) :=
  ⟨by decide,
   listNewsFeed_returns_followed_and_own_sorted sampleUsers sampleDb uC 1 2 (by decide)⟩

/-- Claim C2 (code bug evidence): a successful create request with text
`hello` and no photo persists a post whose `postedBy` is unset — the
controller assigns the requesting profile to the stray `createdBy` property
instead — so the persisted author is not the authenticated user. The response
does echo the saved text. -/
theorem create_assigns_createdBy_not_postedBy :
    ((create uC 5 (fun s => s) [] (.success ⟨"hello"⟩ none)).db).map Post.postedBy = [none]
      ∧ ((create uC 5 (fun s => s) [] (.success ⟨"hello"⟩ none)).db).map Post.createdBy
          = [some uC]
      ∧ ((create uC 5 (fun s => s) [] (.success ⟨"hello"⟩ none)).body).map Post.text
          = some "hello" := by
  decide

/-- Claim C3 (code bug evidence): `listByUser` for user 1, whose collection
holds a post by user 1, still answers with an empty response body, because
the handler calls `res.json()` with no argument. -/
theorem listByUser_responds_without_body :
    (listByUser sampleUsers [pE] uA).2 = none
      ∧ [pE].filter (byUserMatch uA._id) ≠ [] := by
  decide

/-- Claim C4: on the DELETE /api/posts/:postId chain
(`requireSignin, isPoster, remove`), an authenticated requester who is not
the post's author gets Forbidden (HTTP 403), the collection is unchanged, and
the terminal `remove` handler is never invoked. -/
theorem deleteRoute_forbidden_for_nonauthor (u : UserId) (post : Post)
    (db : List Post) (h : isPoster post u = false) :
    deletePostRoute (some u) post db
      = { status := 403, db := db, removeInvoked := false } := by
  simp [deletePostRoute, h]

/-- Witness for claim C4: user 2 attempting to delete user 1's post gets 403
and the collection keeps the post. -/
theorem deleteRoute_forbidden_witness :
    isPoster pA 2 = false
      ∧ deletePostRoute (some 2) pA [pA]
          = { status := 403, db := [pA], removeInvoked := false } :=
  ⟨by decide, deleteRoute_forbidden_for_nonauthor 2 pA [pA] (by decide)⟩

/-- Claim C5: a create request whose multipart body fails to parse is
answered with HTTP 400 and the error body `Image could not be uploaded`, and
the post collection is exactly what it was. -/
theorem create_parse_failure_rejected (profile : User) (now : Time)
    (upload : String → String) (db : List Post) :
    create profile now upload db .failure
      = { status := 400, error := some "Image could not be uploaded",
          body := none, db := db } := rfl

/-- Claim C6 (code bug evidence): on a feed containing a post by user 1 with
a comment by user 2, `listNewsFeed` returns the comment's author populated to
`_id name`, but the post's own author still as the raw reference — the
pipeline lacks a `populate(postedBy)` step, contradicting the controller's
own doc comment. -/
theorem listNewsFeed_leaves_author_unpopulated :
    ((listNewsFeed sampleUsers [pE] uC).1).map Post.postedBy
        = [some (AuthorRef.raw 1)]
      ∧ ((listNewsFeed sampleUsers [pE] uC).1).map (fun p => p.comments.map Comment.postedBy)
          = [[AuthorRef.populated 2 "Ben"]]
      ∧ (AuthorRef.raw 1).isPopulated = false := by
  decide

/-- Claim C7 (code bug evidence): an Enter keydown (`event.code` is the
string `Enter`) on a non-empty input sends no comment request, because the
handler's condition compares `event.code` to the number 13 with loose
equality, which never holds for a key-name string. -/
theorem addComment_enter_sends_no_request :
    addComment 3 "tok" 7 "hi" { code := "Enter", targetValue := "hi" } = none := by
  decide

/-- Claim C8 (code bug evidence): the client `like` helper does issue one PUT
carrying the Bearer token and a JSON body with `postId` and `userId`, but to
the URL string `api/posts/like/` — a relative path with a trailing slash, not
the server path `/api/posts/like`. -/
theorem like_uses_relative_url :
    (like "u1" "tok" "p1").url ≠ "/api/posts/like"
      ∧ (like "u1" "tok" "p1").url = "api/posts/like/"
      ∧ (like "u1" "tok" "p1").method = "PUT"
      ∧ (like "u1" "tok" "p1").headers.contains ("Authorization", "Bearer tok") = true
      ∧ (like "u1" "tok" "p1").body = some { postId := "p1", userId := "u1" } := by
  decide

/-- Claim C9 counterexample: for a requester with `following = [1, 2]`, the
profile attached to the request does not have the same `following` array
after `listNewsFeed` runs — the handler pushed the requester's own id onto
it. -/
theorem listNewsFeed_mutates_following :
    ((listNewsFeed [] [] ⟨3, "Uma", [1, 2]⟩).2).following ≠ [1, 2] := by
  decide

/-- Claim C9 (amended): `listNewsFeed` modifies the requester's profile in
exactly one way — it appends the requester's own `_id` to the `following`
array, whose original elements are preserved in order as a prefix; every
other profile field is unchanged. -/
theorem listNewsFeed_appends_own_id (users : List User) (db : List Post)
    (profile : User) :
    (listNewsFeed users db profile).2
      = { profile with following := profile.following ++ [profile._id] } := rfl

/-- Claim C10 counterexample: `removePost` applied to a list not containing
the given post does not leave the list unchanged — `indexOf` yields `-1` and
`splice(-1, 1)` removes the last element. -/
theorem removePost_absent_removes_last :
    removePost [pA, pB] pD = [pA] ∧ pD ∉ [pA, pB] := by
  decide

/-- Claim C10 (amended): `removePost` removes exactly the first occurrence of
the post when it occurs in the list, preserving the order of all other
elements; when the post does not occur, it removes the last element of a
non-empty list (and leaves an empty list unchanged), i.e. it returns
`dropLast`. -/
theorem removePost_amended (posts : List Post) (post : Post)
    (l1 l2 : List Post) :
    (posts = l1 ++ post :: l2 → post ∉ l1 → removePost posts post = l1 ++ l2)
      ∧ (post ∉ posts → removePost posts post = posts.dropLast) := by
  constructor
  · intro heq hnot
    have hin : post ∈ posts := heq ▸ List.mem_append_right l1 (List.mem_cons_self post l2)
    rw [removePost, jsIndexOf, if_pos hin, jsSpliceRemoveOne_ofNat, heq,
      List.indexOf_append_of_not_mem hnot, List.indexOf_cons_self, Nat.add_zero]
    have htake : (l1 ++ post :: l2).take l1.length = l1 := List.take_left l1 _
    have hdrop : (l1 ++ post :: l2).drop (l1.length + 1) = l2 := by
      rw [show l1 ++ post :: l2 = (l1 ++ [post]) ++ l2 by simp,
        List.drop_left' (by simp)]
    rw [htake, hdrop]
  · intro hnot
    rw [removePost, jsIndexOf, if_neg hnot, jsSpliceRemoveOne_neg_one]

/-- Witness for claim C10 (amended): removing post `pB` from `[pA, pB, pC]`
leaves `[pA] ++ [pC]`, and removing the absent `pD` drops the last
element. -/
theorem removePost_amended_witness :
    removePost [pA, pB, pC] pB = [pA] ++ [pC]
      ∧ removePost [pA, pB, pC] pD = List.dropLast [pA, pB, pC] :=
  ⟨(removePost_amended [pA, pB, pC] pB [pA] [pC]).1 (by decide) (by decide),
   (removePost_amended [pA, pB, pC] pD [pA] [pC]).2 (by decide)⟩

end SocialApp
